import Mathlib

/-!
Verification of the `savefile` package (src/savefile/saver.py and the
build variant src/build/lib/savefile/saver.py) against its specification.

The Python module is embedded shallowly: the filesystem is an explicit
state (a list of directories and a list of path-to-content file entries),
`save_file`, `list_files` and `delete_file` are pure functions threading
that state, and Python exceptions become `Except` errors.  The external
encoders (pandas, numpy, json, pickle, matplotlib) are not code of this
repository; their outputs are modelled as injective content constructors
(`FileContent`), which is exactly the information the dispatcher under
verification controls: which encoder runs, on which value, to which path.
-/

/-- A single quotation mark (Python `'`), as it appears in the f-string
error messages of `saver.py`. -/
def pyQuote : String := "\u0027"

/-- Model of a pandas `DataFrame`: named columns of integer cells.  The
dispatcher never inspects a frame, it only hands it to an encoder, so the
cell type is immaterial to every claim. -/
structure DataFrame where
  columns : List (String × List Int)
deriving DecidableEq

mutual
/-- JSON-serializable Python values (arguments accepted by `json.dump`). -/
inductive Json where
  | jNull : Json
  | jBool (b : Bool) : Json
  | jInt (n : Int) : Json
  | jStr (s : String) : Json
  | jArr (xs : JsonList) : Json
  | jObj (kvs : JsonObj) : Json
/-- A Python list of JSON-serializable values. -/
inductive JsonList where
  | nil : JsonList
  | cons (hd : Json) (tl : JsonList) : JsonList
/-- A Python dict with string keys and JSON-serializable values. -/
inductive JsonObj where
  | nil : JsonObj
  | cons (k : String) (v : Json) (tl : JsonObj) : JsonObj
end

deriving instance DecidableEq for Json, JsonList, JsonObj

/-- The Python runtime values `save_file` can receive, one constructor per
`isinstance` branch of `src/savefile/saver.py`, plus `other` for every
unsupported runtime type (int, float, set, ...). -/
inductive PyValue where
  | dataFrame (df : DataFrame)
  | ndarray (arr : List Int)
  | pyList (xs : JsonList)
  | pyDict (kvs : JsonObj)
  | pyStr (s : String)
  | pyBytes (bs : List Nat)
  | figure (figId : Nat)
  | other (typeName : String)
deriving DecidableEq

/-- Encoded on-disk artifacts.  Each constructor stands for the byte
stream the corresponding library encoder produces; the constructors are
injective, which models that each encoder is faithfully invertible on the
value domain above. -/
inductive FileContent where
  | csvData (df : DataFrame)
  | pickledDataFrame (df : DataFrame)
  | npyData (arr : List Int)
  | jsonData (j : Json)
  | textData (s : String)
  | pickledBytes (bs : List Nat)
  | figureImage (figId : Nat) (format : String)
  | zipArchive (entryName : String) (entry : FileContent)
deriving DecidableEq

/-- Byte size of an encoded artifact.  Concrete sizes produced by the
external encoders are abstracted: every encoder other than the raw text
writer emits a non-empty stream (CSV header line, npy magic header, JSON
brackets, pickle opcodes, image container), modelled as one byte plus the
payload measure; raw text is the string's character count. -/
def FileContent.byteSize : FileContent → Nat
  | .csvData _ => 1
  | .pickledDataFrame _ => 1
  | .npyData arr => 1 + arr.length
  | .jsonData _ => 1
  | .textData s => s.length
  | .pickledBytes bs => 1 + bs.length
  | .figureImage _ _ => 1
  | .zipArchive _ e => 1 + e.byteSize

/-- The two `ValueError` families raised by `save_file`, separated the way
the specification names them; each carries the exact message text the
Python code would raise. -/
inductive SaveError where
  | incompatibleFormat (msg : String)
  | unsupportedType (msg : String)
deriving DecidableEq

/- ### Path helpers (`os.path`) -/

/-- Index of the last occurrence of a character in a character list. -/
def lastIdxOf (c : Char) (l : List Char) : Option Nat :=
  ((l.enum.filter (fun p => p.2 == c)).getLast?).map Prod.fst

/-- `os.path.splitext`: split at the last dot of the final path component,
unless every character of the final component before that dot is itself a
dot (so `".bashrc"` has no extension). -/
def splitext (p : String) : String × String :=
  let l := p.data
  match lastIdxOf '.' l with
  | none => (p, "")
  | some d =>
    let s0 := match lastIdxOf '/' l with
      | none => 0
      | some s => s + 1
    if (List.range' s0 (d - s0)).any (fun i => l.get? i != some '.') then
      (String.mk (l.take d), String.mk (l.drop d))
    else (p, "")

/-- Whether a path string starts with the separator. -/
def startsSlash (s : String) : Bool := s.data.head? == some '/'

/-- Whether a path string ends with the separator. -/
def endsSlash (s : String) : Bool := s.data.getLast? == some '/'

/-- `os.path.join` for two components on a POSIX filesystem. -/
def joinPath (a b : String) : String :=
  if startsSlash b then b
  else if a = "" then b
  else if endsSlash a then a ++ b
  else a ++ "/" ++ b

/-- `os.path.basename`: the part after the last separator. -/
def basename (p : String) : String :=
  match lastIdxOf '/' p.data with
  | none => p
  | some s => String.mk (p.data.drop (s + 1))

/-- Drop trailing separators (used to normalize directory paths; the root
directory keeps its single separator). -/
def stripSlash (p : String) : String :=
  if p = "/" then p
  else String.mk ((p.data.reverse.dropWhile (fun c => c == '/')).reverse)

/-- Split a character list at every separator (structural version of
`String.split` on the slash). -/
def splitSlashes : List Char → List Char → List (List Char)
  | [], acc => [acc.reverse]
  | c :: rest, acc =>
    if c = '/' then acc.reverse :: splitSlashes rest []
    else splitSlashes rest (c :: acc)

/-- The directories `os.makedirs p` brings into existence: every ancestor
of `p`, outermost first. -/
def dirChain (p : String) : List String :=
  let q := stripSlash p
  if q = "" then []
  else
    let comps := ((splitSlashes q.data []).map String.mk).filter (fun c => c != "")
    let isAbs := startsSlash q
    let step : List String → String → List String := fun acc c =>
      match acc with
      | [] => [if isAbs then "/" ++ c else c]
      | last :: rest => (last ++ "/" ++ c) :: last :: rest
    (comps.foldl step []).reverse

/-- ASCII lower-casing of one character (the portion of Python
`str.lower()` the extension strings exercise). -/
def pyCharLower (c : Char) : Char :=
  if 65 ≤ c.toNat ∧ c.toNat ≤ 90 then Char.ofNat (c.toNat + 32) else c

/-- Python `str.lower()` (ASCII portion). -/
def pyLower (s : String) : String := String.mk (s.data.map pyCharLower)

/-- Python whitespace recognized by `str.strip()` (ASCII portion). -/
def isPySpace (c : Char) : Bool :=
  c == ' ' || c == '\t' || c == '\n' || c == '\r' || c == '\x0b' || c == '\x0c'

/-- Python `str.strip()`: remove leading and trailing whitespace. -/
def pyStrip (s : String) : String :=
  String.mk (((s.data.dropWhile isPySpace).reverse.dropWhile isPySpace).reverse)

/-- The extension-normalization line of `save_file`:
`file_ext = file_ext.lower().strip()`. -/
def normExt (file_name : String) : String :=
  pyStrip (pyLower (splitext file_name).2)

/-- Python `file_ext.replace(".", "")`, used to derive the `format=`
argument of `Figure.savefig`. -/
def dropDots (s : String) : String :=
  String.mk (s.data.filter (fun c => c != '.'))

/- ### Filesystem state -/

/-- Filesystem state: the set of existing directories (stored without a
trailing separator) and the regular files with their contents.  File
writes prepend, so a lookup sees the latest write. -/
structure FS where
  dirs : List String
  files : List (String × FileContent)
deriving DecidableEq

/-- `os.path.exists`. -/
def FS.pathExists (fs : FS) (p : String) : Bool :=
  fs.dirs.contains (stripSlash p) || (fs.files.lookup p).isSome

/-- `os.path.isfile`. -/
def FS.isFile (fs : FS) (p : String) : Bool :=
  (fs.files.lookup p).isSome

/-- Content of the regular file at `p`, if any. -/
def FS.getFile (fs : FS) (p : String) : Option FileContent :=
  fs.files.lookup p

/-- `os.makedirs`: create a directory and all its ancestors. -/
def FS.makedirs (fs : FS) (p : String) : FS :=
  { fs with dirs := dirChain p ++ fs.dirs }

/-- The guard `if not os.path.exists(base_dir): os.makedirs(base_dir)`. -/
def FS.ensureDir (fs : FS) (d : String) : FS :=
  if fs.pathExists d then fs else fs.makedirs d

/-- `open(p, "w")` followed by a full write. -/
def FS.writeFile (fs : FS) (p : String) (c : FileContent) : FS :=
  { fs with files := (p, c) :: fs.files }

/-- `os.remove`. -/
def FS.removeFile (fs : FS) (p : String) : FS :=
  { fs with files := fs.files.filter (fun q => q.1 != p) }

/-- A directory path with its trailing separator. -/
def dirPre (d : String) : String := if endsSlash d then d else d ++ "/"

/-- The name a path contributes to `os.listdir d`, when it lies directly
under the directory `d`. -/
def childName (d p : String) : Option String :=
  if (dirPre d).data.isPrefixOf p.data then
    let rest := p.data.drop (dirPre d).data.length
    if rest ≠ [] ∧ rest.all (fun c => c != '/') then some (String.mk rest)
    else none
  else none

/- ### The semantic kinds and their accepted extensions -/

/-- The six semantic kinds of the specification, one per `isinstance`
branch of the dispatcher. -/
inductive SaveKind where
  | table
  | numericArray
  | jsonValue
  | text
  | binaryBlob
  | figure
deriving DecidableEq

/-- `isinstance(variable, pd.DataFrame)`. -/
def isDataFrame : PyValue → Bool
  | .dataFrame _ => true
  | _ => false

/-- `isinstance(variable, np.ndarray)`. -/
def isNdarray : PyValue → Bool
  | .ndarray _ => true
  | _ => false

/-- `isinstance(variable, (list, dict))`. -/
def isListOrDict : PyValue → Bool
  | .pyList _ => true
  | .pyDict _ => true
  | _ => false

/-- `isinstance(variable, str)`. -/
def isStr : PyValue → Bool
  | .pyStr _ => true
  | _ => false

/-- `isinstance(variable, bytes)`. -/
def isBytes : PyValue → Bool
  | .pyBytes _ => true
  | _ => false

/-- `isinstance(variable, plt.Figure)`. -/
def isFigure : PyValue → Bool
  | .figure _ => true
  | _ => false

/-- The `isinstance` chain of `save_file`, in source order: the first
predicate that matches decides the kind; a value matching none has no
kind. -/
def kindOf (v : PyValue) : Option SaveKind :=
  if isDataFrame v then some .table
  else if isNdarray v then some .numericArray
  else if isListOrDict v then some .jsonValue
  else if isStr v then some .text
  else if isBytes v then some .binaryBlob
  else if isFigure v then some .figure
  else none

/-- The ordered classification table: the `isinstance` tests of
`save_file` paired with the kind each one selects, in source order. -/
def kindChecks : List ((PyValue → Bool) × SaveKind) :=
  [(isDataFrame, .table), (isNdarray, .numericArray),
   (isListOrDict, .jsonValue), (isStr, .text),
   (isBytes, .binaryBlob), (isFigure, .figure)]

/-- The `valid_extensions` list of the Figure branch. -/
def figureExtensions : List String :=
  [".png", ".jpg", ".jpeg", ".pdf", ".svg", ".tif", ".tiff"]

/-- Accepted extensions per kind, exactly the branch conditions of
`save_file` (and the table in §4 of the specification). -/
def acceptedExts : SaveKind → List String
  | .table => [".csv", ".pkl", ".pickle"]
  | .numericArray => [".npy"]
  | .jsonValue => [".json"]
  | .text => [".txt"]
  | .binaryBlob => [".pkl", ".pickle"]
  | .figure => figureExtensions

/-- Default extension appended by the build-variant dispatcher
(src/build/lib/savefile/saver.py) for each kind with a fixed format; the
build variant encodes Figures using its separate `img_format` argument. -/
def defaultExt : SaveKind → Option String
  | .table => some ".csv"
  | .numericArray => some ".npy"
  | .jsonValue => some ".json"
  | .text => some ".txt"
  | .binaryBlob => some ".pkl"
  | .figure => none

/- ### Error message texts (the f-strings of `saver.py`) -/

/-- Join strings with a comma-space separator. -/
def joinComma : List String → String
  | [] => ""
  | [x] => x
  | x :: y :: rest => x ++ ", " ++ joinComma (y :: rest)

/-- Python `repr` of a list of strings, as an f-string renders
`valid_extensions`. -/
def pyReprList (l : List String) : String :=
  "[" ++ joinComma (l.map (fun s => pyQuote ++ s ++ pyQuote)) ++ "]"

/-- Prefix of the DataFrame incompatible-extension message. -/
def dfMsgPre : String := "DataFrame cannot be saved with extension " ++ pyQuote

/-- Suffix of the DataFrame incompatible-extension message. -/
def dfMsgPost : String := pyQuote ++ ". Use .csv, .pkl, or .pickle."

/-- Prefix of the NumPy-array incompatible-extension message. -/
def npMsgPre : String := "NumPy array cannot be saved with extension " ++ pyQuote

/-- Suffix of the NumPy-array incompatible-extension message. -/
def npMsgPost : String := pyQuote ++ ". Use .npy."

/-- Prefix of the list/dict incompatible-extension message. -/
def jsonMsgPre : String := "list/dict cannot be saved with extension " ++ pyQuote

/-- Suffix of the list/dict incompatible-extension message. -/
def jsonMsgPost : String := pyQuote ++ ". Use .json."

/-- Prefix of the string incompatible-extension message. -/
def txtMsgPre : String := "String cannot be saved with extension " ++ pyQuote

/-- Suffix of the string incompatible-extension message. -/
def txtMsgPost : String := pyQuote ++ ". Use .txt."

/-- Prefix of the bytes incompatible-extension message. -/
def bytesMsgPre : String := "bytes cannot be saved with extension " ++ pyQuote

/-- Suffix of the bytes incompatible-extension message. -/
def bytesMsgPost : String := pyQuote ++ ". Use .pkl or .pickle."

/-- Prefix of the Matplotlib-figure incompatible-extension message. -/
def figMsgPre : String := "Matplotlib figure cannot be saved with extension " ++ pyQuote

/-- Suffix of the Matplotlib-figure incompatible-extension message. -/
def figMsgPost : String := pyQuote ++ ". Use one of " ++ pyReprList figureExtensions

/-- The message of the final `else` branch of `save_file`. -/
def unsupportedMsg : String := "Unsupported data type for saving."

/- ### The dispatcher -/

/-- The `isinstance`/extension dispatch of `save_file`
(src/savefile/saver.py, lines 92-155): given the already-normalized
extension and `file_path_no_ext`, either the path and content written, or
the `ValueError` raised. -/
def dispatch (variableArg : PyValue) (file_ext : String) (file_path_no_ext : String) :
    Except SaveError (String × FileContent) :=
  match variableArg with
  | .dataFrame df =>
    if file_ext = ".csv" then .ok (file_path_no_ext ++ ".csv", .csvData df)
    else if file_ext = ".pkl" ∨ file_ext = ".pickle" then
      .ok (file_path_no_ext ++ file_ext, .pickledDataFrame df)
    else .error (.incompatibleFormat (dfMsgPre ++ file_ext ++ dfMsgPost))
  | .ndarray arr =>
    if file_ext = ".npy" then .ok (file_path_no_ext ++ ".npy", .npyData arr)
    else .error (.incompatibleFormat (npMsgPre ++ file_ext ++ npMsgPost))
  | .pyList xs =>
    if file_ext = ".json" then .ok (file_path_no_ext ++ ".json", .jsonData (.jArr xs))
    else .error (.incompatibleFormat (jsonMsgPre ++ file_ext ++ jsonMsgPost))
  | .pyDict kvs =>
    if file_ext = ".json" then .ok (file_path_no_ext ++ ".json", .jsonData (.jObj kvs))
    else .error (.incompatibleFormat (jsonMsgPre ++ file_ext ++ jsonMsgPost))
  | .pyStr s =>
    if file_ext = ".txt" then .ok (file_path_no_ext ++ ".txt", .textData s)
    else .error (.incompatibleFormat (txtMsgPre ++ file_ext ++ txtMsgPost))
  | .pyBytes bs =>
    if file_ext = ".pkl" ∨ file_ext = ".pickle" then
      .ok (file_path_no_ext ++ file_ext, .pickledBytes bs)
    else .error (.incompatibleFormat (bytesMsgPre ++ file_ext ++ bytesMsgPost))
  | .figure figId =>
    if file_ext ∈ figureExtensions then
      .ok (file_path_no_ext ++ file_ext, .figureImage figId (dropDots file_ext))
    else .error (.incompatibleFormat (figMsgPre ++ file_ext ++ figMsgPost))
  | .other _ => .error (.unsupportedType unsupportedMsg)

/-- `save_file` of src/savefile/saver.py: ensure the base directory,
split and normalize the extension, dispatch to an encoder, then
optionally wrap the written file into a `.zip` archive and remove the
original.  The Python parameter `variable` is a Lean keyword, hence
`variableArg`; the figure branch's `plt.close` releases a resource
outside the filesystem state and has no footprint here. -/
def save_file (variableArg : PyValue) (file_name : String)
    (base_dir : String) (zip_file : Bool) (fs : FS) :
    FS × Except SaveError String :=
  let fs1 := FS.ensureDir fs base_dir
  let file_base := (splitext file_name).1
  let file_ext := normExt file_name
  let file_path_no_ext := joinPath base_dir file_base
  match dispatch variableArg file_ext file_path_no_ext with
  | .error e => (fs1, .error e)
  | .ok pc =>
    let fs2 := FS.writeFile fs1 pc.1 pc.2
    if zip_file then
      let zip_path := pc.1 ++ ".zip"
      (FS.removeFile (FS.writeFile fs2 zip_path (.zipArchive (basename pc.1) pc.2)) pc.1,
       .ok ("File successfully zipped at: " ++ zip_path))
    else (fs2, .ok ("File successfully saved at: " ++ pc.1))

/-- `list_files` of src/savefile/saver.py: empty result when the base
directory does not exist, otherwise the `os.listdir` entries that are
regular files; listing a path that exists but is not a directory raises
(`NotADirectoryError` from `os.listdir`). -/
def list_files (base_dir : String) (fs : FS) : Except String (List String) :=
  if fs.pathExists base_dir = false then .ok []
  else if stripSlash base_dir ∈ fs.dirs then
    .ok ((((fs.files.map Prod.fst) ++ fs.dirs).filterMap
            (childName base_dir)).dedup.filter
          (fun f => fs.isFile (joinPath base_dir f)))
  else .error "NotADirectoryError"

/-- `delete_file` of src/savefile/saver.py: remove `base_dir/file_name`
when it exists and is a regular file, else report a not-found message; a
total function, so no exception escapes on the not-found path. -/
def delete_file (file_name : String) (base_dir : String) (fs : FS) : FS × String :=
  let target_path := joinPath base_dir file_name
  if fs.pathExists target_path && fs.isFile target_path then
    (fs.removeFile target_path,
     "File " ++ pyQuote ++ file_name ++ pyQuote ++ " has been deleted from "
       ++ pyQuote ++ base_dir ++ pyQuote ++ ".")
  else
    (fs,
     "File " ++ pyQuote ++ file_name ++ pyQuote ++ " does not exist in "
       ++ pyQuote ++ base_dir ++ pyQuote ++ ".")

/-- `save_file` of the build variant src/build/lib/savefile/saver.py: no
extension is taken from `file_name`; each kind appends its fixed format
(figures use the `img_format` argument), and the zip branch returns the
bare archive path. -/
def BuildLib.save_file (variable_name : PyValue) (file_name : String)
    (base_dir : String) (zip_file : Bool) (img_format : String) (fs : FS) :
    FS × Except SaveError String :=
  let fs1 := FS.ensureDir fs base_dir
  let file_path := joinPath base_dir file_name
  let enc : Except SaveError (String × FileContent) :=
    match variable_name with
    | .dataFrame df => .ok (file_path ++ ".csv", .csvData df)
    | .ndarray arr => .ok (file_path ++ ".npy", .npyData arr)
    | .pyList xs => .ok (file_path ++ ".json", .jsonData (.jArr xs))
    | .pyDict kvs => .ok (file_path ++ ".json", .jsonData (.jObj kvs))
    | .pyStr s => .ok (file_path ++ ".txt", .textData s)
    | .pyBytes bs => .ok (file_path ++ ".pkl", .pickledBytes bs)
    | .figure figId => .ok (file_path ++ "." ++ img_format, .figureImage figId img_format)
    | .other _ => .error (.unsupportedType unsupportedMsg)
  match enc with
  | .error e => (fs1, .error e)
  | .ok pc =>
    let fs2 := FS.writeFile fs1 pc.1 pc.2
    if zip_file then
      let zip_path := pc.1 ++ ".zip"
      (FS.removeFile (FS.writeFile fs2 zip_path (.zipArchive (basename pc.1) pc.2)) pc.1,
       .ok zip_path)
    else (fs2, .ok ("File is successfully saved at: " ++ pc.1))

/- ### Kind-appropriate read-back (decoders inverting the encoders) -/

/-- `pd.read_csv` on an artifact, when it is CSV table data. -/
def read_csv : FileContent → Option DataFrame
  | .csvData df => some df
  | _ => none

/-- `pd.read_pickle` on an artifact, when it is a pickled DataFrame. -/
def read_pickle_df : FileContent → Option DataFrame
  | .pickledDataFrame df => some df
  | _ => none

/-- `np.load` on an artifact, when it is a binary array file. -/
def np_load : FileContent → Option (List Int)
  | .npyData arr => some arr
  | _ => none

/-- `json.load` on an artifact, when it is a JSON file. -/
def json_load : FileContent → Option Json
  | .jsonData j => some j
  | _ => none

/-- A plain text read of an artifact, when it is a text file. -/
def read_text : FileContent → Option String
  | .textData s => some s
  | _ => none

/-- `pickle.load` on an artifact, when it is generically pickled bytes. -/
def pickle_load : FileContent → Option (List Nat)
  | .pickledBytes bs => some bs
  | _ => none

/-- Whether an artifact's content, decoded by the reader appropriate to
the value's kind, reproduces the value; figures are checked by non-zero
size only. -/
def contentFor (v : PyValue) (c : FileContent) : Prop :=
  match v with
  | .dataFrame df => read_csv c = some df ∨ read_pickle_df c = some df
  | .ndarray arr => np_load c = some arr
  | .pyList xs => json_load c = some (.jArr xs)
  | .pyDict kvs => json_load c = some (.jObj kvs)
  | .pyStr s => read_text c = some s
  | .pyBytes bs => pickle_load c = some bs
  | .figure _ => 0 < c.byteSize
  | .other _ => False

/-- The round-trip property at a path: the file is on disk and its
content decodes back to the value. -/
def readBack (fs : FS) (p : String) (v : PyValue) : Prop :=
  ∃ c, FS.getFile fs p = some c ∧ contentFor v c

/- ### General-purpose helper lemmas -/

/-- String append acts as list append on the character data. -/
theorem strData_append (s t : String) : (s ++ t).data = s.data ++ t.data := rfl

/-- The middle factor of a three-way concatenation is an infix. -/
theorem strMidIsInfix (a b c : String) : b.data <:+: (a ++ b ++ c).data :=
  ⟨a.data, c.data, by simp [strData_append]⟩

/-- An infix of the last factor of a three-way concatenation is an infix
of the whole. -/
theorem strTailIsInfix (a b c : String) {e : List Char} (h : e <:+: c.data) :
    e <:+: (a ++ b ++ c).data := by
  obtain ⟨s, t, et⟩ := h
  exact ⟨(a ++ b).data ++ s, t, by simp [strData_append, List.append_assoc, et]⟩

/-- A list is a Boolean prefix of itself followed by anything. -/
theorem isPrefixOf_self_append (l m : List Char) : l.isPrefixOf (l ++ m) = true := by
  induction l with
  | nil => simp [List.isPrefixOf]
  | cons h t ih => simp [List.isPrefixOf, ih]

/-- A successful association-list lookup means the key is among the
mapped keys. -/
theorem mem_keys_of_lookup (k : String) (v : FileContent) (l : List (String × FileContent))
    (h : List.lookup k l = some v) : k ∈ l.map Prod.fst := by
  induction l with
  | nil => simp [List.lookup] at h
  | cons a t ih =>
    rw [List.lookup] at h
    by_cases hk : (k == a.1) = true
    · rw [List.map_cons, List.mem_cons]
      left
      exact eq_of_beq hk
    · rw [Bool.not_eq_true] at hk
      rw [hk] at h
      rw [List.map_cons, List.mem_cons]
      right
      exact ih h

/-- After filtering away every entry with key `p`, looking up `p` fails:
removing a file really removes it. -/
theorem lookup_filter_ne (p : String) (l : List (String × FileContent)) :
    List.lookup p (l.filter (fun q => q.1 != p)) = none := by
  induction l with
  | nil => rfl
  | cons a t ih =>
    rw [List.filter_cons]
    by_cases hk : (a.1 != p) = true
    · rw [if_pos hk, List.lookup]
      have : (p == a.1) = false := by
        rw [bne_iff_ne] at hk
        exact beq_eq_false_iff_ne.mpr (Ne.symm hk)
      rw [this]
      exact ih
    · rw [Bool.not_eq_true] at hk
      rw [hk]
      simp only [Bool.false_eq_true, if_false]
      exact ih

/-- Appending the `.zip` suffix changes a path. -/
theorem append_zip_ne (p : String) : p ++ ".zip" ≠ p := by
  intro h
  have hlen := congrArg (fun s => s.data.length) h
  simp [strData_append] at hlen

/-- An extension outside the matched kind's set drives `dispatch` into the
`ValueError` branch; the message embeds the extension and every accepted
extension of that kind. -/
theorem dispatch_incompatible (v : PyValue) (k : SaveKind) (hk : kindOf v = some k)
    (ext fp : String) (hext : ext ∉ acceptedExts k) :
    ∃ m, dispatch v ext fp = Except.error (.incompatibleFormat m) ∧
      ext.data <:+: m.data ∧ ∀ e ∈ acceptedExts k, e.data <:+: m.data := by
  cases v with
  | dataFrame df =>
    simp only [kindOf, isDataFrame, if_true] at hk
    rw [Option.some.injEq] at hk
    subst hk
    simp only [acceptedExts, List.mem_cons, List.not_mem_nil, or_false] at hext
    push_neg at hext
    refine ⟨dfMsgPre ++ ext ++ dfMsgPost, ?_, strMidIsInfix _ _ _, ?_⟩
    · simp [dispatch, hext.1, hext.2.1, hext.2.2]
    · intro e he
      simp only [acceptedExts, List.mem_cons, List.not_mem_nil, or_false] at he
      rcases he with h | h | h <;> subst h <;> exact strTailIsInfix _ _ _ (by decide)
  | ndarray arr =>
    simp only [kindOf, isDataFrame, isNdarray, if_true, if_false, Bool.false_eq_true] at hk
    rw [Option.some.injEq] at hk
    subst hk
    simp only [acceptedExts, List.mem_cons, List.not_mem_nil, or_false] at hext
    refine ⟨npMsgPre ++ ext ++ npMsgPost, ?_, strMidIsInfix _ _ _, ?_⟩
    · simp [dispatch, hext]
    · intro e he
      simp only [acceptedExts, List.mem_cons, List.not_mem_nil, or_false] at he
      subst he
      exact strTailIsInfix _ _ _ (by decide)
  | pyList xs =>
    simp only [kindOf, isDataFrame, isNdarray, isListOrDict, if_true, if_false,
      Bool.false_eq_true] at hk
    rw [Option.some.injEq] at hk
    subst hk
    simp only [acceptedExts, List.mem_cons, List.not_mem_nil, or_false] at hext
    refine ⟨jsonMsgPre ++ ext ++ jsonMsgPost, ?_, strMidIsInfix _ _ _, ?_⟩
    · simp [dispatch, hext]
    · intro e he
      simp only [acceptedExts, List.mem_cons, List.not_mem_nil, or_false] at he
      subst he
      exact strTailIsInfix _ _ _ (by decide)
  | pyDict kvs =>
    simp only [kindOf, isDataFrame, isNdarray, isListOrDict, if_true, if_false,
      Bool.false_eq_true] at hk
    rw [Option.some.injEq] at hk
    subst hk
    simp only [acceptedExts, List.mem_cons, List.not_mem_nil, or_false] at hext
    refine ⟨jsonMsgPre ++ ext ++ jsonMsgPost, ?_, strMidIsInfix _ _ _, ?_⟩
    · simp [dispatch, hext]
    · intro e he
      simp only [acceptedExts, List.mem_cons, List.not_mem_nil, or_false] at he
      subst he
      exact strTailIsInfix _ _ _ (by decide)
  | pyStr s =>
    simp only [kindOf, isDataFrame, isNdarray, isListOrDict, isStr, if_true, if_false,
      Bool.false_eq_true] at hk
    rw [Option.some.injEq] at hk
    subst hk
    simp only [acceptedExts, List.mem_cons, List.not_mem_nil, or_false] at hext
    refine ⟨txtMsgPre ++ ext ++ txtMsgPost, ?_, strMidIsInfix _ _ _, ?_⟩
    · simp [dispatch, hext]
    · intro e he
      simp only [acceptedExts, List.mem_cons, List.not_mem_nil, or_false] at he
      subst he
      exact strTailIsInfix _ _ _ (by decide)
  | pyBytes bs =>
    simp only [kindOf, isDataFrame, isNdarray, isListOrDict, isStr, isBytes, if_true,
      if_false, Bool.false_eq_true] at hk
    rw [Option.some.injEq] at hk
    subst hk
    simp only [acceptedExts, List.mem_cons, List.not_mem_nil, or_false] at hext
    push_neg at hext
    refine ⟨bytesMsgPre ++ ext ++ bytesMsgPost, ?_, strMidIsInfix _ _ _, ?_⟩
    · simp [dispatch, hext.1, hext.2]
    · intro e he
      simp only [acceptedExts, List.mem_cons, List.not_mem_nil, or_false] at he
      rcases he with h | h <;> subst h <;> exact strTailIsInfix _ _ _ (by decide)
  | figure figId =>
    simp only [kindOf, isDataFrame, isNdarray, isListOrDict, isStr, isBytes, isFigure,
      if_true, if_false, Bool.false_eq_true] at hk
    rw [Option.some.injEq] at hk
    subst hk
    simp only [acceptedExts] at hext
    refine ⟨figMsgPre ++ ext ++ figMsgPost, ?_, strMidIsInfix _ _ _, ?_⟩
    · simp [dispatch, hext]
    · intro e he
      simp only [acceptedExts, figureExtensions, List.mem_cons, List.not_mem_nil,
        or_false] at he
      rcases he with h | h | h | h | h | h | h <;> subst h <;>
        exact strTailIsInfix _ _ _ (by decide)
  | other t =>
    simp [kindOf, isDataFrame, isNdarray, isListOrDict, isStr, isBytes, isFigure] at hk

/-- An extension inside the matched kind's set drives `dispatch` into the
matching encoder: the target is `file_path_no_ext ++ ext` and the content
decodes back to the value. -/
theorem dispatch_compatible (v : PyValue) (k : SaveKind) (hk : kindOf v = some k)
    (ext fp : String) (hext : ext ∈ acceptedExts k) :
    ∃ c, dispatch v ext fp = Except.ok (fp ++ ext, c) ∧ contentFor v c := by
  cases v with
  | dataFrame df =>
    simp only [kindOf, isDataFrame, if_true, Option.some.injEq] at hk
    subst hk
    simp only [acceptedExts, List.mem_cons, List.not_mem_nil, or_false] at hext
    rcases hext with h | h | h <;> subst h
    · exact ⟨.csvData df, rfl, Or.inl rfl⟩
    · exact ⟨.pickledDataFrame df, rfl, Or.inr rfl⟩
    · exact ⟨.pickledDataFrame df, rfl, Or.inr rfl⟩
  | ndarray arr =>
    simp only [kindOf, isDataFrame, isNdarray, if_true, if_false, Bool.false_eq_true,
      Option.some.injEq] at hk
    subst hk
    simp only [acceptedExts, List.mem_cons, List.not_mem_nil, or_false] at hext
    subst hext
    exact ⟨.npyData arr, rfl, rfl⟩
  | pyList xs =>
    simp only [kindOf, isDataFrame, isNdarray, isListOrDict, if_true, if_false,
      Bool.false_eq_true, Option.some.injEq] at hk
    subst hk
    simp only [acceptedExts, List.mem_cons, List.not_mem_nil, or_false] at hext
    subst hext
    exact ⟨.jsonData (.jArr xs), rfl, rfl⟩
  | pyDict kvs =>
    simp only [kindOf, isDataFrame, isNdarray, isListOrDict, if_true, if_false,
      Bool.false_eq_true, Option.some.injEq] at hk
    subst hk
    simp only [acceptedExts, List.mem_cons, List.not_mem_nil, or_false] at hext
    subst hext
    exact ⟨.jsonData (.jObj kvs), rfl, rfl⟩
  | pyStr s =>
    simp only [kindOf, isDataFrame, isNdarray, isListOrDict, isStr, if_true, if_false,
      Bool.false_eq_true, Option.some.injEq] at hk
    subst hk
    simp only [acceptedExts, List.mem_cons, List.not_mem_nil, or_false] at hext
    subst hext
    exact ⟨.textData s, rfl, rfl⟩
  | pyBytes bs =>
    simp only [kindOf, isDataFrame, isNdarray, isListOrDict, isStr, isBytes, if_true,
      if_false, Bool.false_eq_true, Option.some.injEq] at hk
    subst hk
    simp only [acceptedExts, List.mem_cons, List.not_mem_nil, or_false] at hext
    rcases hext with h | h <;> subst h
    · exact ⟨.pickledBytes bs, rfl, rfl⟩
    · exact ⟨.pickledBytes bs, rfl, rfl⟩
  | figure figId =>
    simp only [kindOf, isDataFrame, isNdarray, isListOrDict, isStr, isBytes, isFigure,
      if_true, if_false, Bool.false_eq_true, Option.some.injEq] at hk
    subst hk
    simp only [acceptedExts, figureExtensions, List.mem_cons, List.not_mem_nil,
      or_false] at hext
    rcases hext with h | h | h | h | h | h | h <;> subst h <;>
      exact ⟨.figureImage figId _, rfl, by simp [contentFor, FileContent.byteSize]⟩
  | other t =>
    simp [kindOf, isDataFrame, isNdarray, isListOrDict, isStr, isBytes, isFigure] at hk

/-- A value matching no `isinstance` branch reaches the final `else`. -/
theorem dispatch_unsupported (v : PyValue) (hk : kindOf v = none) (ext fp : String) :
    dispatch v ext fp = Except.error (.unsupportedType unsupportedMsg) := by
  cases v <;>
    simp [kindOf, isDataFrame, isNdarray, isListOrDict, isStr, isBytes, isFigure] at hk
  rfl

/-- Every successful `dispatch` writes to `file_path_no_ext ++ ext`. -/
theorem dispatch_path (v : PyValue) (ext fp p : String) (c : FileContent)
    (h : dispatch v ext fp = Except.ok (p, c)) : p = fp ++ ext := by
  cases v with
  | dataFrame df =>
    simp only [dispatch] at h
    split at h
    next hc =>
      simp only [Except.ok.injEq, Prod.mk.injEq] at h
      rw [← h.1, hc]
    next =>
      split at h
      next =>
        simp only [Except.ok.injEq, Prod.mk.injEq] at h
        rw [← h.1]
      next => simp at h
  | ndarray arr =>
    simp only [dispatch] at h
    split at h
    next hc =>
      simp only [Except.ok.injEq, Prod.mk.injEq] at h
      rw [← h.1, hc]
    next => simp at h
  | pyList xs =>
    simp only [dispatch] at h
    split at h
    next hc =>
      simp only [Except.ok.injEq, Prod.mk.injEq] at h
      rw [← h.1, hc]
    next => simp at h
  | pyDict kvs =>
    simp only [dispatch] at h
    split at h
    next hc =>
      simp only [Except.ok.injEq, Prod.mk.injEq] at h
      rw [← h.1, hc]
    next => simp at h
  | pyStr s =>
    simp only [dispatch] at h
    split at h
    next hc =>
      simp only [Except.ok.injEq, Prod.mk.injEq] at h
      rw [← h.1, hc]
    next => simp at h
  | pyBytes bs =>
    simp only [dispatch] at h
    split at h
    next =>
      simp only [Except.ok.injEq, Prod.mk.injEq] at h
      rw [← h.1]
    next => simp at h
  | figure figId =>
    simp only [dispatch] at h
    split at h
    next =>
      simp only [Except.ok.injEq, Prod.mk.injEq] at h
      rw [← h.1]
    next => simp at h
  | other t => simp [dispatch] at h

/-- `save_file` on a dispatch error: the directory side effect has
happened, nothing else. -/
theorem save_file_err (v : PyValue) (fn bd : String) (z : Bool) (fs : FS) (e : SaveError)
    (h : dispatch v (normExt fn) (joinPath bd (splitext fn).1) = Except.error e) :
    save_file v fn bd z fs = (FS.ensureDir fs bd, Except.error e) := by
  simp only [save_file, h]

/-- `save_file` without compression on a dispatch success. -/
theorem save_file_ok (v : PyValue) (fn bd : String) (fs : FS) (p : String) (c : FileContent)
    (h : dispatch v (normExt fn) (joinPath bd (splitext fn).1) = Except.ok (p, c)) :
    save_file v fn bd false fs =
      (FS.writeFile (FS.ensureDir fs bd) p c,
       Except.ok ("File successfully saved at: " ++ p)) := by
  simp [save_file, h]

/-- `save_file` with compression on a dispatch success: write, archive,
remove the original. -/
theorem save_file_ok_zip (v : PyValue) (fn bd : String) (fs : FS) (p : String) (c : FileContent)
    (h : dispatch v (normExt fn) (joinPath bd (splitext fn).1) = Except.ok (p, c)) :
    save_file v fn bd true fs =
      (FS.removeFile
         (FS.writeFile (FS.writeFile (FS.ensureDir fs bd) p c) (p ++ ".zip")
           (.zipArchive (basename p) c)) p,
       Except.ok ("File successfully zipped at: " ++ (p ++ ".zip"))) := by
  simp [save_file, h]

/-- `FS.ensureDir` never touches the files. -/
theorem ensureDir_files (fs : FS) (d : String) : (FS.ensureDir fs d).files = fs.files := by
  unfold FS.ensureDir
  split <;> simp [FS.makedirs]

/-- The directory set after a `save_file` call is exactly the one the
initial `makedirs` guard produced: encoding never creates directories. -/
theorem save_file_dirs (v : PyValue) (fn bd : String) (z : Bool) (fs : FS) :
    (save_file v fn bd z fs).1.dirs = (FS.ensureDir fs bd).dirs := by
  cases h : dispatch v (normExt fn) (joinPath bd (splitext fn).1) with
  | error e => rw [save_file_err v fn bd z fs e h]
  | ok pc =>
    cases z
    · rw [save_file_ok v fn bd fs pc.1 pc.2 (by rw [← h])]
      simp [FS.writeFile]
    · rw [save_file_ok_zip v fn bd fs pc.1 pc.2 (by rw [← h])]
      simp [FS.writeFile, FS.removeFile]

/-- C1: for every value of one of the six kinds, a resolved extension
outside that kind's accepted set makes `save_file` fail with the
incompatible-format `ValueError`, whose message embeds the offending
extension and every accepted extension, and no file is written. -/
theorem save_incompatible_extension_spec (v : PyValue) (k : SaveKind)
    (hk : kindOf v = some k) (file_name base_dir : String) (zip_file : Bool) (fs : FS)
    (hext : normExt file_name ∉ acceptedExts k) :
    ∃ m, (save_file v file_name base_dir zip_file fs).2 =
        Except.error (.incompatibleFormat m) ∧
      (normExt file_name).data <:+: m.data ∧
      (∀ e ∈ acceptedExts k, e.data <:+: m.data) ∧
      (save_file v file_name base_dir zip_file fs).1.files = fs.files := by
  obtain ⟨m, hd, h1, h2⟩ := dispatch_incompatible v k hk (normExt file_name)
    (joinPath base_dir (splitext file_name).1) hext
  rw [save_file_err v file_name base_dir zip_file fs _ hd]
  exact ⟨m, rfl, h1, h2, ensureDir_files fs base_dir⟩

/-- Witness for C1: saving a NumPy array as `.csv` fails with a message
naming `.csv` and the accepted `.npy`, writing nothing. -/
theorem save_incompatible_extension_witness :
    kindOf (.ndarray [1, 2, 3]) = some .numericArray ∧
    normExt "a.csv" ∉ acceptedExts .numericArray ∧
    ∃ m, (save_file (.ndarray [1, 2, 3]) "a.csv" "/d" false ⟨[], []⟩).2 =
        Except.error (.incompatibleFormat m) ∧
      (normExt "a.csv").data <:+: m.data ∧
      (∀ e ∈ acceptedExts .numericArray, e.data <:+: m.data) ∧
      (save_file (.ndarray [1, 2, 3]) "a.csv" "/d" false ⟨[], []⟩).1.files =
        FS.files ⟨[], []⟩ :=
  ⟨rfl, by decide,
   save_incompatible_extension_spec (.ndarray [1, 2, 3]) .numericArray rfl
     "a.csv" "/d" false ⟨[], []⟩ (by decide)⟩

/-- C2 (code bug): the successful call returns the human-readable message
embedding the final path, not the path itself, although the docstring
promises `Path of the saved or zipped file`. -/
theorem save_returns_message_not_path :
    (save_file (.pyStr "hello") "x.txt" "/d" false ⟨[], []⟩).2 =
      Except.ok "File successfully saved at: /d/x.txt" ∧
    "File successfully saved at: /d/x.txt" ≠ "/d/x.txt" :=
  ⟨rfl, by decide⟩

/-- Counterexample to C3: a DataFrame saved under the extensionless name
`data` makes `save_file` raise the incompatible-format error (the empty
extension matches no accepted set) and write nothing, instead of
selecting the kind's default extension and succeeding. -/
theorem save_missing_extension_counterexample :
    (save_file (.dataFrame ⟨[("A", [1, 2])]⟩) "data" "/d" false ⟨[], []⟩).2 =
      Except.error (.incompatibleFormat (dfMsgPre ++ dfMsgPost)) ∧
    (save_file (.dataFrame ⟨[("A", [1, 2])]⟩) "data" "/d" false ⟨[], []⟩).1.files = [] :=
  ⟨rfl, rfl⟩

/-- C3 (amended): when the target name carries no extension, `save_file`
of src/savefile/saver.py fails with the incompatible-format error and
writes nothing, for every kind that has a default; only the build-variant
dispatcher assigns the default, writing `base_dir/name.default_ext` and
succeeding. -/
theorem save_missing_extension_behavior (v : PyValue) (k : SaveKind)
    (hk : kindOf v = some k) (d : String) (hd : defaultExt k = some d)
    (file_name base_dir : String) (fs : FS) (hext : normExt file_name = "") :
    (∃ m, (save_file v file_name base_dir false fs).2 =
        Except.error (.incompatibleFormat m)) ∧
    (save_file v file_name base_dir false fs).1.files = fs.files ∧
    (BuildLib.save_file v file_name base_dir false "png" fs).2 =
      Except.ok ("File is successfully saved at: " ++ (joinPath base_dir file_name ++ d)) ∧
    FS.isFile (BuildLib.save_file v file_name base_dir false "png" fs).1
      (joinPath base_dir file_name ++ d) = true := by
  have hne : normExt file_name ∉ acceptedExts k := by
    rw [hext]
    cases k <;> decide
  obtain ⟨m, hdisp, _, _⟩ := dispatch_incompatible v k hk (normExt file_name)
    (joinPath base_dir (splitext file_name).1) hne
  rw [save_file_err v file_name base_dir false fs _ hdisp]
  refine ⟨⟨m, rfl⟩, ensureDir_files fs base_dir, ?_⟩
  cases v with
  | dataFrame df =>
    simp only [kindOf, isDataFrame, if_true, Option.some.injEq] at hk
    subst hk
    simp only [defaultExt, Option.some.injEq] at hd
    subst hd
    exact ⟨by simp [BuildLib.save_file],
           by simp [BuildLib.save_file, FS.isFile, FS.writeFile, List.lookup]⟩
  | ndarray arr =>
    simp only [kindOf, isDataFrame, isNdarray, if_true, if_false, Bool.false_eq_true,
      Option.some.injEq] at hk
    subst hk
    simp only [defaultExt, Option.some.injEq] at hd
    subst hd
    exact ⟨by simp [BuildLib.save_file],
           by simp [BuildLib.save_file, FS.isFile, FS.writeFile, List.lookup]⟩
  | pyList xs =>
    simp only [kindOf, isDataFrame, isNdarray, isListOrDict, if_true, if_false,
      Bool.false_eq_true, Option.some.injEq] at hk
    subst hk
    simp only [defaultExt, Option.some.injEq] at hd
    subst hd
    exact ⟨by simp [BuildLib.save_file],
           by simp [BuildLib.save_file, FS.isFile, FS.writeFile, List.lookup]⟩
  | pyDict kvs =>
    simp only [kindOf, isDataFrame, isNdarray, isListOrDict, if_true, if_false,
      Bool.false_eq_true, Option.some.injEq] at hk
    subst hk
    simp only [defaultExt, Option.some.injEq] at hd
    subst hd
    exact ⟨by simp [BuildLib.save_file],
           by simp [BuildLib.save_file, FS.isFile, FS.writeFile, List.lookup]⟩
  | pyStr s =>
    simp only [kindOf, isDataFrame, isNdarray, isListOrDict, isStr, if_true, if_false,
      Bool.false_eq_true, Option.some.injEq] at hk
    subst hk
    simp only [defaultExt, Option.some.injEq] at hd
    subst hd
    exact ⟨by simp [BuildLib.save_file],
           by simp [BuildLib.save_file, FS.isFile, FS.writeFile, List.lookup]⟩
  | pyBytes bs =>
    simp only [kindOf, isDataFrame, isNdarray, isListOrDict, isStr, isBytes, if_true,
      if_false, Bool.false_eq_true, Option.some.injEq] at hk
    subst hk
    simp only [defaultExt, Option.some.injEq] at hd
    subst hd
    exact ⟨by simp [BuildLib.save_file],
           by simp [BuildLib.save_file, FS.isFile, FS.writeFile, List.lookup]⟩
  | figure figId =>
    simp only [kindOf, isDataFrame, isNdarray, isListOrDict, isStr, isBytes, isFigure,
      if_true, if_false, Bool.false_eq_true, Option.some.injEq] at hk
    subst hk
    simp [defaultExt] at hd
  | other t =>
    simp [kindOf, isDataFrame, isNdarray, isListOrDict, isStr, isBytes, isFigure] at hk

/-- Witness for C3 (amended), at a DataFrame and the extensionless name
`data`. -/
theorem save_missing_extension_witness :
    (∃ m, (save_file (.dataFrame ⟨[("A", [1])]⟩) "data" "/d" false ⟨[], []⟩).2 =
        Except.error (.incompatibleFormat m)) ∧
    (save_file (.dataFrame ⟨[("A", [1])]⟩) "data" "/d" false ⟨[], []⟩).1.files =
      FS.files ⟨[], []⟩ ∧
    (BuildLib.save_file (.dataFrame ⟨[("A", [1])]⟩) "data" "/d" false "png" ⟨[], []⟩).2 =
      Except.ok ("File is successfully saved at: " ++ (joinPath "/d" "data" ++ ".csv")) ∧
    FS.isFile (BuildLib.save_file (.dataFrame ⟨[("A", [1])]⟩) "data" "/d" false "png" ⟨[], []⟩).1
      (joinPath "/d" "data" ++ ".csv") = true :=
  save_missing_extension_behavior (.dataFrame ⟨[("A", [1])]⟩) .table rfl ".csv" rfl
    "data" "/d" ⟨[], []⟩ (by decide)

/-- C6: classification follows the `isinstance` chain in source order
(first matching test wins), and a value matching none of the six kinds
fails with the unsupported-type error regardless of the requested
extension, writing nothing. -/
theorem save_classification_spec (v : PyValue) (file_name base_dir : String)
    (zip_file : Bool) (fs : FS) :
    kindOf v = ((kindChecks.find? (fun p => p.1 v)).map Prod.snd) ∧
    (kindOf v = none →
      (save_file v file_name base_dir zip_file fs).2 =
        Except.error (.unsupportedType unsupportedMsg) ∧
      (save_file v file_name base_dir zip_file fs).1.files = fs.files) := by
  constructor
  · cases v <;> rfl
  · intro hk
    rw [save_file_err v file_name base_dir zip_file fs _ (dispatch_unsupported v hk _ _)]
    exact ⟨rfl, ensureDir_files fs base_dir⟩

/-- Witness for C6, at an unsupported value (a Python `int`) and a `.csv`
request. -/
theorem save_classification_witness :
    kindOf (.other "int") = none ∧
    (save_file (.other "int") "x.csv" "/d" false ⟨[], []⟩).2 =
      Except.error (.unsupportedType unsupportedMsg) :=
  ⟨rfl, ((save_classification_spec (.other "int") "x.csv" "/d" false ⟨[], []⟩).2 rfl).1⟩

/-- Boolean form of `append_zip_ne`. -/
theorem zip_bne (p : String) : (p ++ ".zip" != p) = true := bne_iff_ne.mpr (append_zip_ne p)

/-- C5: for every supported value and accepted extension, the save
succeeds, reports the encoded path, and the kind-appropriate read-back
of the file at that path reproduces the value (figures: the file exists
with non-zero size). -/
theorem save_roundTrip_spec (v : PyValue) (k : SaveKind) (hk : kindOf v = some k)
    (file_name base_dir : String) (fs : FS)
    (hext : normExt file_name ∈ acceptedExts k) :
    (save_file v file_name base_dir false fs).2 =
      Except.ok ("File successfully saved at: "
        ++ (joinPath base_dir (splitext file_name).1 ++ normExt file_name)) ∧
    readBack (save_file v file_name base_dir false fs).1
      (joinPath base_dir (splitext file_name).1 ++ normExt file_name) v := by
  obtain ⟨c, hd, hc⟩ := dispatch_compatible v k hk (normExt file_name)
    (joinPath base_dir (splitext file_name).1) hext
  rw [save_file_ok v file_name base_dir fs _ c hd]
  constructor
  · rfl
  · unfold readBack
    exact ⟨c, by simp [FS.getFile, FS.writeFile, List.lookup], hc⟩

/-- Witness for C5: the JSON list `[1, 2, 3]` saved as `x.json` parses
back to itself. -/
theorem save_roundTrip_witness :
    (save_file (.pyList (.cons (.jInt 1) (.cons (.jInt 2) (.cons (.jInt 3) .nil))))
        "x.json" "/d" false ⟨[], []⟩).2 =
      Except.ok ("File successfully saved at: "
        ++ (joinPath "/d" (splitext "x.json").1 ++ normExt "x.json")) ∧
    readBack (save_file (.pyList (.cons (.jInt 1) (.cons (.jInt 2) (.cons (.jInt 3) .nil))))
        "x.json" "/d" false ⟨[], []⟩).1
      (joinPath "/d" (splitext "x.json").1 ++ normExt "x.json")
      (.pyList (.cons (.jInt 1) (.cons (.jInt 2) (.cons (.jInt 3) .nil)))) :=
  save_roundTrip_spec (.pyList (.cons (.jInt 1) (.cons (.jInt 2) (.cons (.jInt 3) .nil))))
    .jsonValue rfl "x.json" "/d" ⟨[], []⟩ (by decide)

/-- C4: with compression requested, a successful save leaves the
single-entry archive `<encoded-file>.zip` next to the encoded file (whose
basename is the archive's entry), removes the uncompressed file, and
reports the archive path. -/
theorem save_compress_archive_spec (v : PyValue) (k : SaveKind) (hk : kindOf v = some k)
    (file_name base_dir : String) (fs : FS)
    (hext : normExt file_name ∈ acceptedExts k) :
    (save_file v file_name base_dir true fs).2 =
      Except.ok ("File successfully zipped at: "
        ++ ((joinPath base_dir (splitext file_name).1 ++ normExt file_name) ++ ".zip")) ∧
    (∃ c, FS.getFile (save_file v file_name base_dir true fs).1
        ((joinPath base_dir (splitext file_name).1 ++ normExt file_name) ++ ".zip") =
      some (.zipArchive
        (basename (joinPath base_dir (splitext file_name).1 ++ normExt file_name)) c)) ∧
    FS.isFile (save_file v file_name base_dir true fs).1
      (joinPath base_dir (splitext file_name).1 ++ normExt file_name) = false := by
  obtain ⟨c, hd, _⟩ := dispatch_compatible v k hk (normExt file_name)
    (joinPath base_dir (splitext file_name).1) hext
  rw [save_file_ok_zip v file_name base_dir fs _ c hd]
  have hne := zip_bne (joinPath base_dir (splitext file_name).1 ++ normExt file_name)
  refine ⟨rfl, ⟨c, ?_⟩, ?_⟩
  · simp [FS.getFile, FS.removeFile, FS.writeFile, List.filter_cons, hne, List.lookup]
  · simp [FS.isFile, FS.removeFile, FS.writeFile, lookup_filter_ne]

/-- Witness for C4: compressing a two-column DataFrame saved as `x.csv`
yields `x.csv.zip` holding entry `x.csv`, and `x.csv` is gone. -/
theorem save_compress_archive_witness :
    (save_file (.dataFrame ⟨[("A", [1, 2]), ("B", [3, 4])]⟩) "x.csv" "/d" true ⟨[], []⟩).2 =
      Except.ok ("File successfully zipped at: "
        ++ ((joinPath "/d" (splitext "x.csv").1 ++ normExt "x.csv") ++ ".zip")) ∧
    (∃ c, FS.getFile (save_file (.dataFrame ⟨[("A", [1, 2]), ("B", [3, 4])]⟩)
          "x.csv" "/d" true ⟨[], []⟩).1
        ((joinPath "/d" (splitext "x.csv").1 ++ normExt "x.csv") ++ ".zip") =
      some (.zipArchive (basename (joinPath "/d" (splitext "x.csv").1 ++ normExt "x.csv")) c)) ∧
    FS.isFile (save_file (.dataFrame ⟨[("A", [1, 2]), ("B", [3, 4])]⟩)
        "x.csv" "/d" true ⟨[], []⟩).1
      (joinPath "/d" (splitext "x.csv").1 ++ normExt "x.csv") = false :=
  save_compress_archive_spec (.dataFrame ⟨[("A", [1, 2]), ("B", [3, 4])]⟩) .table rfl
    "x.csv" "/d" ⟨[], []⟩ (by decide)

/-- C10: extension matching is insensitive to letter case and surrounding
whitespace: whenever the lowercased, stripped extension of the file name
is accepted for the value's kind, the save succeeds and the file on disk
carries that normalized extension. -/
theorem save_extension_normalization_spec (v : PyValue) (k : SaveKind)
    (hk : kindOf v = some k) (file_name base_dir : String) (fs : FS)
    (hext : pyStrip (pyLower (splitext file_name).2) ∈ acceptedExts k) :
    ∃ m, (save_file v file_name base_dir false fs).2 = Except.ok m ∧
      FS.isFile (save_file v file_name base_dir false fs).1
        (joinPath base_dir (splitext file_name).1
          ++ pyStrip (pyLower (splitext file_name).2)) = true := by
  obtain ⟨c, hd, _⟩ := dispatch_compatible v k hk (normExt file_name)
    (joinPath base_dir (splitext file_name).1) hext
  rw [save_file_ok v file_name base_dir fs _ c hd]
  exact ⟨_, rfl, by simp [FS.isFile, FS.writeFile, List.lookup, normExt]⟩

/-- Witness for C10: the name `x.CSV ` (upper case, trailing blank)
passes the DataFrame check and the file lands at `/d/x.csv`. -/
theorem save_extension_normalization_witness :
    ∃ m, (save_file (.dataFrame ⟨[("A", [1, 2])]⟩) "x.CSV " "/d" false ⟨[], []⟩).2 =
        Except.ok m ∧
      FS.isFile (save_file (.dataFrame ⟨[("A", [1, 2])]⟩) "x.CSV " "/d" false ⟨[], []⟩).1
        (joinPath "/d" (splitext "x.CSV ").1
          ++ pyStrip (pyLower (splitext "x.CSV ").2)) = true :=
  save_extension_normalization_spec (.dataFrame ⟨[("A", [1, 2])]⟩) .table rfl
    "x.CSV " "/d" ⟨[], []⟩ (by decide)

/-- C7: `delete_file` removes `base_dir/name` and reports the deleted
message exactly when that path is a regular file; otherwise (missing path
or a directory) it leaves the filesystem untouched and reports the
not-found message — it is a total function, so no fault escapes. -/
theorem delete_file_spec (file_name base_dir : String) (fs : FS) :
    (FS.isFile fs (joinPath base_dir file_name) = true →
      delete_file file_name base_dir fs =
        (FS.removeFile fs (joinPath base_dir file_name),
         "File " ++ pyQuote ++ file_name ++ pyQuote ++ " has been deleted from "
           ++ pyQuote ++ base_dir ++ pyQuote ++ ".") ∧
      FS.isFile (delete_file file_name base_dir fs).1 (joinPath base_dir file_name) = false) ∧
    (FS.isFile fs (joinPath base_dir file_name) = false →
      delete_file file_name base_dir fs =
        (fs,
         "File " ++ pyQuote ++ file_name ++ pyQuote ++ " does not exist in "
           ++ pyQuote ++ base_dir ++ pyQuote ++ ".")) := by
  constructor
  · intro hf
    have hcond : (fs.pathExists (joinPath base_dir file_name)
        && fs.isFile (joinPath base_dir file_name)) = true := by
      simp only [FS.pathExists, FS.isFile] at *
      rw [hf]
      simp
    have hdel : delete_file file_name base_dir fs =
        (FS.removeFile fs (joinPath base_dir file_name),
         "File " ++ pyQuote ++ file_name ++ pyQuote ++ " has been deleted from "
           ++ pyQuote ++ base_dir ++ pyQuote ++ ".") := by
      simp [delete_file, hcond]
    refine ⟨hdel, ?_⟩
    rw [hdel]
    simp [FS.isFile, FS.removeFile, lookup_filter_ne]
  · intro hf
    have hcond : (fs.pathExists (joinPath base_dir file_name)
        && fs.isFile (joinPath base_dir file_name)) = false := by
      rw [Bool.and_eq_false_iff]
      right
      exact hf
    simp [delete_file, hcond]

/-- Witness for C7: deleting the present `a.txt` removes it with the
success message. -/
theorem delete_file_witness :
    FS.isFile ⟨["/d"], [("/d/a.txt", .textData "hi")]⟩ (joinPath "/d" "a.txt") = true ∧
    delete_file "a.txt" "/d" ⟨["/d"], [("/d/a.txt", .textData "hi")]⟩ =
      (FS.removeFile ⟨["/d"], [("/d/a.txt", .textData "hi")]⟩ (joinPath "/d" "a.txt"),
       "File " ++ pyQuote ++ "a.txt" ++ pyQuote ++ " has been deleted from "
         ++ pyQuote ++ "/d" ++ pyQuote ++ ".") :=
  ⟨by decide,
   ((delete_file_spec "a.txt" "/d" ⟨["/d"], [("/d/a.txt", .textData "hi")]⟩).1 (by decide)).1⟩

/-- C9: a missing `base_dir` is created recursively (with all ancestors)
by every `save_file` call before any encode attempt — the final directory
set is exactly the one the initial `makedirs` guard produced, on success
and on every failure path alike — and every successful dispatch writes to
`base_dir/base_name + extension`. -/
theorem save_dir_invariant_spec (v : PyValue) (file_name base_dir : String)
    (zip_file : Bool) (fs : FS) :
    (FS.pathExists fs base_dir = false →
      ∀ d ∈ dirChain base_dir, d ∈ (save_file v file_name base_dir zip_file fs).1.dirs) ∧
    (save_file v file_name base_dir zip_file fs).1.dirs = (FS.ensureDir fs base_dir).dirs ∧
    (∀ p c, dispatch v (normExt file_name) (joinPath base_dir (splitext file_name).1) =
        Except.ok (p, c) →
      p = joinPath base_dir (splitext file_name).1 ++ normExt file_name) := by
  refine ⟨?_, save_file_dirs v file_name base_dir zip_file fs, ?_⟩
  · intro hpe d hd
    rw [save_file_dirs]
    simp only [FS.ensureDir, hpe, Bool.false_eq_true, if_false, FS.makedirs]
    exact List.mem_append_left _ hd
  · intro p c h
    exact dispatch_path v (normExt file_name) _ p c h

/-- Witness for C9: saving into the missing `/d/e` creates `/d` and
`/d/e`. -/
theorem save_dir_invariant_witness :
    FS.pathExists (⟨[], []⟩ : FS) "/d/e" = false ∧
    "/d/e" ∈ (save_file (.pyStr "hi") "a.txt" "/d/e" false ⟨[], []⟩).1.dirs :=
  ⟨by decide,
   (save_dir_invariant_spec (.pyStr "hi") "a.txt" "/d/e" false ⟨[], []⟩).1 (by decide)
     "/d/e" (by decide)⟩

/-- A nonempty, slash-free name placed under a directory by
`os.path.join` is recovered by `childName`. -/
theorem childName_join (d n : String) (hd : stripSlash d ≠ "") (hn1 : n ≠ "")
    (hn2 : n.data.all (fun c => c != '/') = true) :
    childName d (joinPath d n) = some n := by
  have hdne : d ≠ "" := by
    intro h
    apply hd
    rw [h]
    decide
  have hdata : n.data ≠ [] := by
    intro hh
    apply hn1
    cases n with
    | mk l =>
      change l = [] at hh
      subst hh
      rfl
  have hns : startsSlash n = false := by
    unfold startsSlash
    cases hh : n.data with
    | nil => rfl
    | cons a t =>
      have ha' : a ≠ '/' := by
        have h2 := hn2
        rw [hh] at h2
        simp [List.all_cons] at h2
        exact h2.1
      simp [List.head?, ha']
  have hjoin : joinPath d n = dirPre d ++ n := by
    unfold joinPath dirPre
    by_cases he : endsSlash d = true
    · simp [hns, hdne, he]
    · rw [Bool.not_eq_true] at he
      simp [hns, hdne, he]
  rw [hjoin]
  simp only [childName]
  have h1 : (dirPre d).data.isPrefixOf (dirPre d ++ n).data = true := by
    rw [strData_append]
    exact isPrefixOf_self_append _ _
  rw [if_pos h1]
  have h2 : (dirPre d ++ n).data.drop (dirPre d).data.length = n.data := by
    rw [strData_append]
    exact List.drop_left _ _
  rw [h2, if_pos ⟨hdata, hn2⟩]

/-- Inversion for `childName`: a recovered name is nonempty and free of
separators. -/
theorem childName_inv (d p n : String) (h : childName d p = some n) :
    n ≠ "" ∧ n.data.all (fun c => c != '/') = true := by
  simp only [childName] at h
  split at h
  · split at h
    · rename_i hcond
      rw [Option.some.injEq] at h
      subst h
      refine ⟨?_, hcond.2⟩
      intro hemp
      apply hcond.1
      exact congrArg String.data hemp
    · exact absurd h (by simp)
  · exact absurd h (by simp)

/-- C8: `list_files` returns the names (not paths) of exactly the regular
files directly under `base_dir`, excluding subdirectories; a missing
`base_dir` yields the empty list and no error. -/
theorem list_files_spec (base_dir : String) (fs : FS) :
    (FS.pathExists fs base_dir = false → list_files base_dir fs = Except.ok []) ∧
    (stripSlash base_dir ∈ fs.dirs → stripSlash base_dir ≠ "" →
      ∃ l, list_files base_dir fs = Except.ok l ∧
        ∀ n : String, n ∈ l ↔
          (n ≠ "" ∧ n.data.all (fun c => c != '/') = true ∧
           FS.isFile fs (joinPath base_dir n) = true)) := by
  constructor
  · intro hpe
    simp [list_files, hpe]
  · intro hmem hne
    have hpe : FS.pathExists fs base_dir = true := by
      unfold FS.pathExists
      rw [Bool.or_eq_true]
      left
      rw [List.contains_eq_any_beq, List.any_eq_true]
      exact ⟨stripSlash base_dir, hmem, by simp⟩
    refine ⟨(((fs.files.map Prod.fst) ++ fs.dirs).filterMap
        (childName base_dir)).dedup.filter
          (fun f => fs.isFile (joinPath base_dir f)), ?_, ?_⟩
    · unfold list_files
      rw [if_neg (by simp [hpe]), if_pos hmem]
    · intro n
      constructor
      · intro hn
        rw [List.mem_filter] at hn
        obtain ⟨hn1, hn2⟩ := hn
        rw [List.mem_dedup, List.mem_filterMap] at hn1
        obtain ⟨p, _, hcn⟩ := hn1
        obtain ⟨he, ha⟩ := childName_inv base_dir p n hcn
        exact ⟨he, ha, hn2⟩
      · rintro ⟨hn1, hn2, hn3⟩
        rw [List.mem_filter]
        refine ⟨?_, hn3⟩
        rw [List.mem_dedup, List.mem_filterMap]
        refine ⟨joinPath base_dir n, ?_, childName_join base_dir n hne hn1 hn2⟩
        rw [List.mem_append]
        left
        rw [FS.isFile] at hn3
        obtain ⟨w, hw⟩ := Option.isSome_iff_exists.mp hn3
        exact mem_keys_of_lookup _ w _ hw

/-- Witness for C8: in a directory holding the file `a.txt` and the
subdirectory `sub`, the listing is exactly `[a.txt]`-shaped: `a.txt`
satisfies the membership characterization and `sub` does not. -/
theorem list_files_witness :
    ∃ l, list_files "/d" ⟨["/d", "/d/sub"], [("/d/a.txt", .textData "hi")]⟩ =
        Except.ok l ∧
      ∀ n : String, n ∈ l ↔
        (n ≠ "" ∧ n.data.all (fun c => c != '/') = true ∧
         FS.isFile ⟨["/d", "/d/sub"], [("/d/a.txt", .textData "hi")]⟩
           (joinPath "/d" n) = true) :=
  (list_files_spec "/d" ⟨["/d", "/d/sub"], [("/d/a.txt", .textData "hi")]⟩).2
    (by decide) (by decide)
